import Mathlib

/-!
Shallow embedding of the ez-thanos-operator reconciliation engine
(`src/operator/operator.go` of ironcladlou/ez-thanos-operator).

Go `map[string]string` values are modelled as association lists (`SMap`);
the structural equality the source performs via
`equality.Semantic.DeepEqual` on label/annotation maps is modelled by the
extensional `SMap.eqv`.  The Kubernetes API client is modelled as explicit
state passing over a `World` holding the objects of the single operating
namespace, together with a trace of the issued write calls and an
injectable set of write faults (the source's transient API errors on
create/update/delete).  Go panics are modelled by a distinguished
`Outcome.panicked` result (for manifest building, by returning `none`).
-/

namespace EzThanos

/-- Association-list model of Go `map[string]string`.  A `nil` Go map and an
empty map are both `[]` (the distinction is unobservable in the translated
code paths). -/
abbrev SMap := List (String × String)

/-- Lookup of a key, Go `m[k]` with its `ok` flag given by `Option`. -/
def SMap.lookup (m : SMap) (k : String) : Option String :=
  (List.find? (fun p => p.1 == k) m).map (fun p => p.2)

/-- Go `_, ok := m[k]`. -/
def SMap.hasKey (m : SMap) (k : String) : Bool :=
  (SMap.lookup m k).isSome

/-- Go `m[k] = v`: replace in place when the key exists, else append. -/
def SMap.insert (m : SMap) (k v : String) : SMap :=
  if SMap.hasKey m k then
    List.map (fun p => if p.1 == k then (k, v) else p) m
  else
    m ++ [(k, v)]

/-- Go `delete(m, k)`. -/
def SMap.erase (m : SMap) (k : String) : SMap :=
  List.filter (fun p => p.1 != k) m

/-- Extensional map equality: the semantics of `DeepEqual` on two Go maps. -/
def SMap.eqv (a b : SMap) : Bool :=
  List.all (a ++ b) (fun p => SMap.lookup a p.1 == SMap.lookup b p.1)

/-- Namespaced object key (`types.NamespacedName`). -/
structure NamespacedName where
  ns : String
  name : String
deriving DecidableEq, Repr

/-- Fields of `prowapi.ProwJobStatus` used by the operator.  `StartTime` is a
`metav1.Time` value (zero value is a valid time); `CompletionTime` is a
`*metav1.Time` pointer, `none` modelling `nil`. -/
structure ProwJobStatus where
  url : String
  startTime : Int
  completionTime : Option Int
deriving DecidableEq, Repr

/-- Fields of `prowapi.ProwJobSpec` used by the operator. -/
structure ProwJobSpec where
  job : String
deriving DecidableEq, Repr

/-- Fields of `prowapi.ProwJob` used by the operator. -/
structure ProwJob where
  spec : ProwJobSpec
  status : ProwJobStatus
deriving DecidableEq, Repr

/-- The Go zero value `prowapi.ProwJob{}` (what a failed JSON decode leaves
behind when nothing was populated). -/
def ProwJob.zero : ProwJob :=
  { spec := { job := "" }
    status := { url := "", startTime := 0, completionTime := none } }

/-- The operator's `Job`: a prow job plus the resolved archive URL. -/
structure Job where
  prowJob : ProwJob
  prometheusTarURL : String
deriving DecidableEq, Repr

/-- Rendering of `t.UTC().Format(time.RFC3339)`.  Kept as an abstract
injective rendering of the timestamp: no claim depends on the concrete
digits, only on the result being a pure function of the source time. -/
def rfc3339UTC (t : Int) : String :=
  "rfc3339:" ++ toString t

/-- MetricsCluster (`api.MetricsCluster`): name and `Spec.URLs`. -/
structure MetricsCluster where
  name : String
  urls : List String
deriving DecidableEq, Repr

/-- The Go zero value `api.MetricsCluster{}`; `client.Get` leaves the target
object unmodified when it returns a not-found error, so the deletion path of
`reconcileMetricsCluster` sees this value. -/
def MetricsCluster.zero : MetricsCluster :=
  { name := "", urls := [] }

/-- `corev1.HTTPGetAction`. -/
structure HTTPGetAction where
  path : String
  port : Nat
  scheme : String
deriving DecidableEq, Repr

/-- `corev1.Probe` (only the fields the source sets). -/
structure Probe where
  timeoutSeconds : Nat
  periodSeconds : Nat
  successThreshold : Nat
  failureThreshold : Nat
  httpGet : HTTPGetAction
deriving DecidableEq, Repr

/-- `corev1.ContainerPort`. -/
structure ContainerPort where
  name : String
  protocol : String
  containerPort : Nat
deriving DecidableEq, Repr

/-- `corev1.EnvVar`. -/
structure EnvVar where
  name : String
  value : String
deriving DecidableEq, Repr

/-- `corev1.VolumeMount`. -/
structure VolumeMount where
  name : String
  mountPath : String
deriving DecidableEq, Repr

/-- `corev1.Container` (the fields the source sets; resource requests as a
quantity-string map). -/
structure Container where
  name : String
  image : String
  command : List String
  workingDir : String
  env : List EnvVar
  ports : List ContainerPort
  volumeMounts : List VolumeMount
  resourceRequests : SMap
  readinessProbe : Option Probe
deriving DecidableEq, Repr

/-- `corev1.Volume` (the source only uses `EmptyDir` volumes). -/
structure Volume where
  name : String
  emptyDir : Bool
deriving DecidableEq, Repr

/-- `corev1.PodSpec` (the fields the source sets). -/
structure PodSpec where
  shareProcessNamespace : Bool
  volumes : List Volume
  initContainers : List Container
  containers : List Container
deriving DecidableEq, Repr

/-- `corev1.PodTemplateSpec`. -/
structure PodTemplateSpec where
  labels : SMap
  annotations : SMap
  spec : PodSpec
deriving DecidableEq, Repr

/-- `metav1.LabelSelector`. -/
structure LabelSelector where
  matchLabels : SMap
deriving DecidableEq, Repr

/-- `appsv1.DeploymentSpec` (the fields the source sets). -/
structure DeploymentSpec where
  replicas : Nat
  selector : LabelSelector
  template : PodTemplateSpec
deriving DecidableEq, Repr

/-- `appsv1.Deployment`: object meta plus spec. -/
structure Deployment where
  ns : String
  name : String
  labels : SMap
  annotations : SMap
  spec : DeploymentSpec
deriving DecidableEq, Repr

/-- `corev1.ServicePort`. -/
structure ServicePort where
  name : String
  port : Nat
  protocol : String
deriving DecidableEq, Repr

/-- `corev1.Service` (the fields the source sets); `clusterIPNone` is true
when the source sets `ClusterIP: corev1.ClusterIPNone`. -/
structure Service where
  ns : String
  name : String
  clusterIPNone : Bool
  ports : List ServicePort
  selector : SMap
deriving DecidableEq, Repr

/-- `intstr.IntOrString`. -/
inductive IntOrStr where
  | int (n : Nat)
  | str (s : String)
deriving DecidableEq, Repr

/-- `routev1.Route` (the fields the source sets). -/
structure Route where
  ns : String
  name : String
  toKind : String
  toName : String
  targetPort : IntOrStr
  tlsTermination : String
  insecurePolicy : String
deriving DecidableEq, Repr

/-- Operator configuration (`type Operator` in the source, its config
fields).  `sha256hex6` stands for the source's
`fmt.Sprintf("%x", sha256.Sum256(bytes)[:6])`: a pure digest of the input
string, kept abstract because no claim depends on the digest's value, only
on its being a deterministic function of the job status URL. -/
structure Operator where
  ns : String
  fetcherImage : String
  prometheusImage : String
  thanosImage : String
  gcsStorageBaseURL : String
  prowBaseURL : String
  gcsPrefixURL : String
  prometheusMemory : String
  sha256hex6 : String → String

/-- The init-container script returned by `deploymentInitScript()` (verbatim
source text, with newline escapes). -/
def deploymentInitScript : String :=
  "set -uxo pipefail\numask 0000\ncurl -sL ${PROMTAR} | tar xvz -m\nchown -R 65534:65534 /prometheus\n\ncat >/prometheus/prometheus.yml <<EOL\n\x23 my global config\nglobal:\n  external_labels:\n    cluster_name: \x27${DEPLOYMENT_NAME}\x27\n    cluster_url: \x27${PROW_URL}\x27\n    cluster_job: \x27${PROW_JOB}\x27\n\nscrape_configs:\n  - job_name: \x27prometheus\x27\n    static_configs:\n    - targets: [\x27localhost:9090\x27]\nEOL\n"

/-- `prometheusDeploymentName`: fixed prefix plus hex digest of the job's
status URL, in the operating namespace. -/
def prometheusDeploymentName (o : Operator) (job : Job) : NamespacedName :=
  { ns := o.ns, name := "prometheus-" ++ o.sha256hex6 job.prowJob.status.url }

/-- `prometheusDeploymentManifest`.  Returns `none` when the source would
panic: `job.Status.CompletionTime` is a nil pointer (`none`) and the
annotation construction dereferences it via `.UTC()`. -/
def prometheusDeploymentManifest (o : Operator) (job : Job) : Option Deployment :=
  match job.prowJob.status.completionTime with
  | none => none
  | some completionTime =>
    let name := prometheusDeploymentName o job
    let annots : SMap :=
      [("url", job.prowJob.status.url),
       ("started", rfc3339UTC job.prowJob.status.startTime),
       ("completed", rfc3339UTC completionTime)]
    some
      { ns := name.ns
        name := name.name
        labels := [("app", "prometheus")]
        annotations := annots
        spec :=
          { replicas := 1
            selector :=
              { matchLabels := [("app", "prometheus"), ("prometheus", name.name)] }
            template :=
              { labels := [("app", "prometheus"), ("prometheus", name.name)]
                annotations := annots
                spec :=
                  { shareProcessNamespace := true
                    volumes := [{ name := "prometheus-storage-volume", emptyDir := true }]
                    initContainers :=
                      [{ name := "setup"
                         image := o.fetcherImage
                         command := ["/bin/bash", "-c", deploymentInitScript]
                         workingDir := "/prometheus/"
                         env :=
                           [{ name := "PROMTAR", value := job.prometheusTarURL },
                            { name := "DEPLOYMENT_NAME", value := name.name },
                            { name := "PROW_URL", value := job.prowJob.status.url },
                            { name := "PROW_JOB", value := job.prowJob.spec.job }]
                         ports := []
                         volumeMounts :=
                           [{ name := "prometheus-storage-volume", mountPath := "/prometheus/" }]
                         resourceRequests := []
                         readinessProbe := none }]
                    containers :=
                      [{ name := "prometheus"
                         image := o.prometheusImage
                         command :=
                           ["/bin/prometheus",
                            "--storage.tsdb.max-block-duration=2h",
                            "--storage.tsdb.min-block-duration=2h",
                            "--web.enable-lifecycle",
                            "--storage.tsdb.path=/prometheus",
                            "--config.file=/prometheus/prometheus.yml"]
                         workingDir := ""
                         env := []
                         ports := [{ name := "webui", protocol := "TCP", containerPort := 9090 }]
                         volumeMounts :=
                           [{ name := "prometheus-storage-volume", mountPath := "/prometheus/" }]
                         resourceRequests := [("cpu", "100m"), ("memory", o.prometheusMemory)]
                         readinessProbe := some
                           { timeoutSeconds := 1
                             periodSeconds := 10
                             successThreshold := 1
                             failureThreshold := 3
                             httpGet := { path := "/", port := 9090, scheme := "HTTP" } } },
                       { name := "thanos-sidecar"
                         image := o.thanosImage
                         command :=
                           ["/bin/thanos",
                            "sidecar",
                            "--tsdb.path=/prometheus",
                            "--prometheus.url=http://localhost:9090",
                            "--shipper.upload-compacted"]
                         workingDir := ""
                         env := []
                         ports := [{ name := "webui", protocol := "TCP", containerPort := 9090 }]
                         volumeMounts :=
                           [{ name := "prometheus-storage-volume", mountPath := "/prometheus/" }]
                         resourceRequests := []
                         readinessProbe := some
                           { timeoutSeconds := 1
                             periodSeconds := 10
                             successThreshold := 1
                             failureThreshold := 3
                             httpGet := { path := "/", port := 9090, scheme := "HTTP" } } }] } } } }

/-- `thanosStoreServiceName`: `store-` plus the cluster's name. -/
def thanosStoreServiceName (o : Operator) (cluster : MetricsCluster) : NamespacedName :=
  { ns := o.ns, name := "store-" ++ cluster.name }

/-- `thanosStoreServiceManifest`: headless service selecting the prometheus
pods labelled with this cluster's name. -/
def thanosStoreServiceManifest (o : Operator) (cluster : MetricsCluster) : Service :=
  let name := thanosStoreServiceName o cluster
  { ns := name.ns
    name := name.name
    clusterIPNone := true
    ports :=
      [{ name := "grpc", port := 10901, protocol := "TCP" },
       { name := "http", port := 10902, protocol := "TCP" }]
    selector := [("app", "prometheus"), (cluster.name, "true")] }

/-- `thanosQueryDeploymentName`: `query-` plus the cluster's name. -/
def thanosQueryDeploymentName (o : Operator) (cluster : MetricsCluster) : NamespacedName :=
  { ns := o.ns, name := "query-" ++ cluster.name }

/-- `thanosQueryDeploymentManifest`. -/
def thanosQueryDeploymentManifest (o : Operator) (cluster : MetricsCluster) : Deployment :=
  let name := thanosQueryDeploymentName o cluster
  let storeServiceName := thanosStoreServiceName o cluster
  { ns := name.ns
    name := name.name
    labels := [("app", "thanos-query")]
    annotations := []
    spec :=
      { replicas := 1
        selector := { matchLabels := [("app", "thanos-query"), ("cluster", cluster.name)] }
        template :=
          { labels := [("app", "thanos-query"), ("cluster", cluster.name)]
            annotations := []
            spec :=
              { shareProcessNamespace := false
                volumes := []
                initContainers := []
                containers :=
                  [{ name := "query"
                     image := o.thanosImage
                     command :=
                       ["/bin/thanos",
                        "query",
                        "--http-address=0.0.0.0:19192",
                        "--store.sd-dns-interval=10s",
                        "--store=dnssrv+_grpc._tcp." ++ storeServiceName.name ++ "." ++
                          storeServiceName.ns ++ ".svc"]
                     workingDir := ""
                     env := []
                     ports := [{ name := "http", protocol := "TCP", containerPort := 19192 }]
                     volumeMounts := []
                     resourceRequests := []
                     readinessProbe := some
                       { timeoutSeconds := 1
                         periodSeconds := 10
                         successThreshold := 1
                         failureThreshold := 3
                         httpGet := { path := "/", port := 19192, scheme := "HTTP" } } }] } } } }

/-- `thanosQueryServiceName`: `query-` plus the cluster's name. -/
def thanosQueryServiceName (o : Operator) (cluster : MetricsCluster) : NamespacedName :=
  { ns := o.ns, name := "query-" ++ cluster.name }

/-- `thanosQueryServiceManifest`. -/
def thanosQueryServiceManifest (o : Operator) (cluster : MetricsCluster) : Service :=
  let name := thanosQueryServiceName o cluster
  { ns := name.ns
    name := name.name
    clusterIPNone := false
    ports :=
      [{ name := "http", port := 19192, protocol := "TCP" },
       { name := "grpc", port := 10901, protocol := "TCP" }]
    selector := [("app", "thanos-query"), ("cluster", cluster.name)] }

/-- `thanosQueryRouteName`: `query-` plus the cluster's name. -/
def thanosQueryRouteName (o : Operator) (cluster : MetricsCluster) : NamespacedName :=
  { ns := o.ns, name := "query-" ++ cluster.name }

/-- `thanosQueryRouteManifest`: edge-terminated route to the query service's
http port with insecure-traffic redirect. -/
def thanosQueryRouteManifest (o : Operator) (cluster : MetricsCluster) : Route :=
  let name := thanosQueryRouteName o cluster
  let queryServiceName := thanosQueryServiceName o cluster
  { ns := name.ns
    name := name.name
    toKind := "Service"
    toName := queryServiceName.name
    targetPort := IntOrStr.str "http"
    tlsTermination := "edge"
    insecurePolicy := "Redirect" }

/-- The observed state of the operating namespace, plus the process-global
memoization cache of `findPrometheusTarURL` (threaded explicitly). -/
structure World where
  clusters : List MetricsCluster
  deployments : List Deployment
  services : List Service
  routes : List Route
  tarCache : SMap
deriving DecidableEq, Repr

/-- One issued API write call (the trace records attempts; the `World` is
changed only when the call succeeds). -/
inductive WriteOp where
  | createDeployment (d : Deployment)
  | updateDeployment (d : Deployment)
  | deleteDeployment (name : String)
  | createService (s : Service)
  | createRoute (r : Route)
deriving DecidableEq, Repr

/-- Result of one reconciliation: `ok` (`reconcile.Result{}, nil`), `err`
(a non-nil error handed back for re-delivery), or `panicked` (a Go runtime
panic). -/
inductive Outcome where
  | ok
  | err (msg : String)
  | panicked (msg : String)
deriving DecidableEq, Repr

/-- External HTTP collaborators.  `getProwInfo` models `http.Get` on the
derived prowjob.json URL followed by the JSON decode: `none` is a transport
error, `some (decodeOk, job)` is a response whose decode succeeded
(`decodeOk = true`) or failed leaving only the populated fields
(`decodeOk = false`).  `getTarURL` models `getTarURLFromProw(jobURL,
gcsPrefix)` (defined outside the translated file; only its interface is
relevant here). -/
structure Network where
  getProwInfo : String → Option (Bool × ProwJob)
  getTarURL : String → String → Except String String

/-- Injectable transient API-write failures, by target object name. -/
structure Faults where
  createDeploymentFails : String → Bool
  updateDeploymentFails : String → Bool
  deleteDeploymentFails : String → Bool
  createServiceFails : String → Bool
  createRouteFails : String → Bool

/-- No injected API failures. -/
def noFaults : Faults :=
  { createDeploymentFails := fun _ => false
    updateDeploymentFails := fun _ => false
    deleteDeploymentFails := fun _ => false
    createServiceFails := fun _ => false
    createRouteFails := fun _ => false }

/-- Get of a deployment by namespaced name (absence models a not-found
error from the API). -/
def findDeployment (w : World) (nn : NamespacedName) : Option Deployment :=
  List.find? (fun d => d.ns == nn.ns && d.name == nn.name) w.deployments

/-- Get of a service by namespaced name. -/
def findService (w : World) (nn : NamespacedName) : Option Service :=
  List.find? (fun s => s.ns == nn.ns && s.name == nn.name) w.services

/-- Get of a route by namespaced name. -/
def findRoute (w : World) (nn : NamespacedName) : Option Route :=
  List.find? (fun r => r.ns == nn.ns && r.name == nn.name) w.routes

/-- Replace the deployment with the given name (client `Update`). -/
def updateDeploymentIn (w : World) (d : Deployment) : World :=
  { w with deployments := List.map (fun x => if x.name == d.name then d else x) w.deployments }

/-- `findPrometheusTarURL`: memoized resolution of a job URL to its archive
URL.  The global `prometheusURLs` map and its mutex become an explicit cache
argument (the embedding is single-threaded; lazily initializing the nil map
is the identity on the `[]` cache).  The last component counts the calls
made to the network lookup. -/
def findPrometheusTarURL (lookup : String → Except String String) (jobURL : String)
    (cache : SMap) : Except String String × SMap × Nat :=
  match SMap.lookup cache jobURL with
  | some prometheusURL => (Except.ok prometheusURL, cache, 0)
  | none =>
    match lookup jobURL with
    | Except.error e => (Except.error e, cache, 1)
    | Except.ok tarURL => (Except.ok tarURL, SMap.insert cache jobURL tarURL, 1)

/-- `reconcilePrometheusDeployment`: delete the deployment unless some
MetricsCluster in the namespace has its name as a pod-template label key. -/
def reconcilePrometheusDeployment (faults : Faults) (w : World) (deployment : Deployment) :
    World × List WriteOp × Outcome :=
  let isReferenced :=
    List.any w.clusters (fun cluster =>
      SMap.hasKey deployment.spec.template.labels cluster.name)
  if isReferenced then
    (w, [], Outcome.ok)
  else
    if faults.deleteDeploymentFails deployment.name then
      (w, [WriteOp.deleteDeployment deployment.name], Outcome.err "couldn't delete deployment")
    else
      ({ w with deployments := List.filter (fun d => d.name != deployment.name) w.deployments },
       [WriteOp.deleteDeployment deployment.name], Outcome.ok)

/-- `reconcileDeployment`: fetch the deployment (not-found is a no-op) and
hand it to the prometheus-deployment reconciler only when it carries the
label `app=prometheus`. -/
def reconcileDeployment (faults : Faults) (w : World) (request : NamespacedName) :
    World × List WriteOp × Outcome :=
  match findDeployment w request with
  | none => (w, [], Outcome.ok)
  | some deployment =>
    if SMap.lookup deployment.labels "app" == some "prometheus" then
      reconcilePrometheusDeployment faults w deployment
    else
      (w, [], Outcome.ok)

/-- Deletion-event scan of `reconcileMetricsCluster` (cluster not found):
for every deployment in the namespace whose pod-template labels contain the
key `clusterName`, remove that label and update in place; an update failure
is only logged and the scan continues. -/
def removeClusterRefs (faults : Faults) (clusterName : String) :
    List Deployment → World → List WriteOp → World × List WriteOp
  | [], w, ws => (w, ws)
  | deployment :: rest, w, ws =>
    if SMap.hasKey deployment.spec.template.labels clusterName then
      let d' := { deployment with spec := { deployment.spec with
        template := { deployment.spec.template with
          labels := SMap.erase deployment.spec.template.labels clusterName } } }
      let ws := ws ++ [WriteOp.updateDeployment d']
      let w := if faults.updateDeploymentFails d'.name then w else updateDeploymentIn w d'
      removeClusterRefs faults clusterName rest w ws
    else
      removeClusterRefs faults clusterName rest w ws

/-- The derived prowjob.json location: `strings.ReplaceAll(url, ProwBaseURL,
GCSStorageBaseURL) + "/prowjob.json"`. -/
def prowInfoURL (o : Operator) (url : String) : String :=
  (String.replace url o.prowBaseURL o.gcsStorageBaseURL) ++ "/prowjob.json"

/-- One iteration of the URL loop of `reconcileMetricsCluster`.  The last
component is `none` to continue with the next URL and `some outcome` when
the source returns early (API error) or panics. -/
def processURL (o : Operator) (net : Network) (faults : Faults) (cluster : MetricsCluster)
    (url : String) (w : World) : World × List WriteOp × Option Outcome :=
  match net.getProwInfo (prowInfoURL o url) with
  | none => (w, [], none)
  | some (_, prowJob) =>
    let r := findPrometheusTarURL (fun u => net.getTarURL u o.gcsPrefixURL) url w.tarCache
    let w := { w with tarCache := r.2.1 }
    match r.1 with
    | Except.error _ => (w, [], none)
    | Except.ok prometheusTarURL =>
      let job : Job := { prowJob := prowJob, prometheusTarURL := prometheusTarURL }
      let nn := prometheusDeploymentName o job
      let observed := findDeployment w nn
      match prometheusDeploymentManifest o job with
      | none => (w, [], some (Outcome.panicked "nil CompletionTime dereferenced"))
      | some desired =>
        match observed with
        | some obs =>
          let mergedSpec := { desired.spec with template := { desired.spec.template with
            labels := SMap.insert desired.spec.template.labels cluster.name "true" } }
          let obs' := { obs with spec := mergedSpec }
          let desired' := { desired with spec := mergedSpec }
          if !(obs'.spec == desired'.spec) ||
              !(SMap.eqv obs'.labels desired'.labels) ||
              !(SMap.eqv obs'.annotations desired'.annotations) then
            if faults.updateDeploymentFails obs'.name then
              (w, [WriteOp.updateDeployment obs'], some (Outcome.err "couldn't update deployment"))
            else
              (updateDeploymentIn w obs', [WriteOp.updateDeployment obs'], none)
          else
            (w, [], none)
        | none =>
          let desired' := { desired with spec := { desired.spec with
            template := { desired.spec.template with
              labels := SMap.insert desired.spec.template.labels cluster.name "true" } } }
          if faults.createDeploymentFails desired'.name then
            (w, [WriteOp.createDeployment desired'], some (Outcome.err "couldn't create deployment"))
          else
            ({ w with deployments := w.deployments ++ [desired'] },
             [WriteOp.createDeployment desired'], none)

/-- The URL loop of `reconcileMetricsCluster`. -/
def processURLs (o : Operator) (net : Network) (faults : Faults) (cluster : MetricsCluster) :
    List String → World → List WriteOp → World × List WriteOp × Option Outcome
  | [], w, ws => (w, ws, none)
  | url :: rest, w, ws =>
    let r := processURL o net faults cluster url w
    match r.2.2 with
    | some out => (r.1, ws ++ r.2.1, some out)
    | none => processURLs o net faults cluster rest r.1 (ws ++ r.2.1)

/-- Ensure-existence of the thanos store service (create if absent). -/
def ensureStoreService (o : Operator) (faults : Faults) (cluster : MetricsCluster)
    (w : World) (ws : List WriteOp) : World × List WriteOp × Option Outcome :=
  let nn := thanosStoreServiceName o cluster
  match findService w nn with
  | some _ => (w, ws, none)
  | none =>
    let storeService := thanosStoreServiceManifest o cluster
    let ws := ws ++ [WriteOp.createService storeService]
    if faults.createServiceFails nn.name then
      (w, ws, some (Outcome.err "couldn't create service"))
    else
      ({ w with services := w.services ++ [storeService] }, ws, none)

/-- Ensure-existence of the thanos query deployment (create if absent). -/
def ensureQueryDeployment (o : Operator) (faults : Faults) (cluster : MetricsCluster)
    (w : World) (ws : List WriteOp) : World × List WriteOp × Option Outcome :=
  let nn := thanosQueryDeploymentName o cluster
  match findDeployment w nn with
  | some _ => (w, ws, none)
  | none =>
    let queryDeployment := thanosQueryDeploymentManifest o cluster
    let ws := ws ++ [WriteOp.createDeployment queryDeployment]
    if faults.createDeploymentFails nn.name then
      (w, ws, some (Outcome.err "couldn't create deployment"))
    else
      ({ w with deployments := w.deployments ++ [queryDeployment] }, ws, none)

/-- Ensure-existence of the thanos query service (create if absent). -/
def ensureQueryService (o : Operator) (faults : Faults) (cluster : MetricsCluster)
    (w : World) (ws : List WriteOp) : World × List WriteOp × Option Outcome :=
  let nn := thanosQueryServiceName o cluster
  match findService w nn with
  | some _ => (w, ws, none)
  | none =>
    let queryService := thanosQueryServiceManifest o cluster
    let ws := ws ++ [WriteOp.createService queryService]
    if faults.createServiceFails nn.name then
      (w, ws, some (Outcome.err "couldn't create service"))
    else
      ({ w with services := w.services ++ [queryService] }, ws, none)

/-- Ensure-existence of the thanos query route (create if absent). -/
def ensureQueryRoute (o : Operator) (faults : Faults) (cluster : MetricsCluster)
    (w : World) (ws : List WriteOp) : World × List WriteOp × Option Outcome :=
  let nn := thanosQueryRouteName o cluster
  match findRoute w nn with
  | some _ => (w, ws, none)
  | none =>
    let queryRoute := thanosQueryRouteManifest o cluster
    let ws := ws ++ [WriteOp.createRoute queryRoute]
    if faults.createRouteFails nn.name then
      (w, ws, some (Outcome.err "couldn't create route"))
    else
      ({ w with routes := w.routes ++ [queryRoute] }, ws, none)

/-- The ensure-existence phase of `reconcileMetricsCluster`: store service,
query deployment, query service, query route, in source order, each
short-circuiting the whole reconciliation on a failed create. -/
def ensurePhase (o : Operator) (faults : Faults) (cluster : MetricsCluster)
    (w : World) (ws : List WriteOp) : World × List WriteOp × Outcome :=
  let r1 := ensureStoreService o faults cluster w ws
  match r1.2.2 with
  | some out => (r1.1, r1.2.1, out)
  | none =>
    let r2 := ensureQueryDeployment o faults cluster r1.1 r1.2.1
    match r2.2.2 with
    | some out => (r2.1, r2.2.1, out)
    | none =>
      let r3 := ensureQueryService o faults cluster r2.1 r2.2.1
      match r3.2.2 with
      | some out => (r3.1, r3.2.1, out)
      | none =>
        let r4 := ensureQueryRoute o faults cluster r3.1 r3.2.1
        match r4.2.2 with
        | some out => (r4.1, r4.2.1, out)
        | none => (r4.1, r4.2.1, Outcome.ok)

/-- Body of `reconcileMetricsCluster` once the MetricsCluster was fetched:
the URL loop followed by the ensure-existence phase. -/
def reconcileExistingCluster (o : Operator) (net : Network) (faults : Faults)
    (cluster : MetricsCluster) (w : World) : World × List WriteOp × Outcome :=
  let r := processURLs o net faults cluster cluster.urls w []
  match r.2.2 with
  | some out => (r.1, r.2.1, out)
  | none => ensurePhase o faults cluster r.1 r.2.1

/-- `reconcileMetricsCluster`.  When the MetricsCluster is not found, the
source's `cluster` variable keeps the Go zero value (`client.Get` does not
touch the target object on a not-found error), so the deletion scan looks
for the label key `MetricsCluster.zero.name`, the empty string. -/
def reconcileMetricsCluster (o : Operator) (net : Network) (faults : Faults)
    (requestName : String) (w : World) : World × List WriteOp × Outcome :=
  match List.find? (fun c => c.name == requestName) w.clusters with
  | none =>
    let cluster := MetricsCluster.zero
    let r := removeClusterRefs faults cluster.name w.deployments w []
    (r.1, r.2, Outcome.ok)
  | some cluster => reconcileExistingCluster o net faults cluster w

/-! Concrete fixtures used by the claim theorems below.  The operator
config uses an empty source base URL so that the derived prowjob.json
location is the job URL itself followed by the fixed suffix. -/

/-- Example operator configuration. -/
def oEx : Operator :=
  { ns := "dowser", fetcherImage := "f", prometheusImage := "p", thanosImage := "t",
    gcsStorageBaseURL := "g", prowBaseURL := "", gcsPrefixURL := "gp",
    prometheusMemory := "350Mi", sha256hex6 := fun s => s }

/-- Example decoded prow job with both timestamps populated. -/
def jobStEx : ProwJob :=
  { spec := { job := "j" }, status := { url := "su", startTime := 1, completionTime := some 2 } }

/-- Network on which every metadata fetch and archive lookup succeeds. -/
def netEx : Network :=
  { getProwInfo := fun _ => some (true, jobStEx), getTarURL := fun _ _ => Except.ok "tar" }

/-- MetricsCluster `A` listing the single job URL `u`. -/
def cA : MetricsCluster := { name := "A", urls := ["u"] }

/-- Initial world for the sharing scenario: clusters `A` and `B` both list
job URL `u`; no derived objects exist yet. -/
def wEx : World :=
  { clusters := [cA, { name := "B", urls := ["u"] }],
    deployments := [], services := [], routes := [], tarCache := [] }

/-- A deployment spec with every field at its zero value. -/
def trivialSpec : DeploymentSpec :=
  { replicas := 0, selector := { matchLabels := [] },
    template :=
      { labels := [], annotations := [],
        spec := { shareProcessNamespace := false, volumes := [],
                  initContainers := [], containers := [] } } }

/-- Storage workload carrying cluster `A`'s referencing label. -/
def dC2 : Deployment :=
  { ns := "dowser", name := "prometheus-su", labels := [("app", "prometheus")],
    annotations := [],
    spec := { trivialSpec with template := { trivialSpec.template with
      labels := [("app", "prometheus"), ("A", "true")] } } }

/-- World for the deletion scenario: cluster `A` no longer exists but its
referencing label is still on a workload. -/
def wC2 : World :=
  { clusters := [], deployments := [dC2], services := [], routes := [], tarCache := [] }

/-- The job resolved for URL `u` under `netEx`. -/
def jobC4 : Job := { prowJob := jobStEx, prometheusTarURL := "tar" }

/-- Observed storage workload whose spec and labels already equal the
desired state (including cluster `A`'s referencing label) but whose
annotations were cleared, so the structural diff fires on every pass. -/
def dC4 : Deployment :=
  match prometheusDeploymentManifest oEx jobC4 with
  | some d =>
    { d with annotations := [],
             spec := { d.spec with template := { d.spec.template with
               labels := SMap.insert d.spec.template.labels "A" "true" } } }
  | none =>
    { ns := "", name := "", labels := [], annotations := [], spec := trivialSpec }

/-- World for the idempotence scenario: cluster `A` and all of its derived
objects exist; only `dC4`'s annotations differ from desired. -/
def wC4 : World :=
  { clusters := [cA],
    deployments := [dC4, thanosQueryDeploymentManifest oEx cA],
    services := [thanosStoreServiceManifest oEx cA, thanosQueryServiceManifest oEx cA],
    routes := [thanosQueryRouteManifest oEx cA],
    tarCache := [] }

/-- Network whose metadata document fails to decode, leaving the zero-valued
prow job (nil completion timestamp), while the archive lookup succeeds. -/
def netC7 : Network :=
  { getProwInfo := fun _ => some (false, ProwJob.zero), getTarURL := fun _ _ => Except.ok "tar" }

/-- World for the panic scenario: cluster `A` lists one job URL. -/
def wC7 : World :=
  { clusters := [cA], deployments := [], services := [], routes := [], tarCache := [] }

/-- MetricsCluster `A` with no job URLs (ensure-existence phase only). -/
def cA0 : MetricsCluster := { name := "A", urls := [] }

/-- Faults making the create of the store service `store-A` fail. -/
def faultsC6 : Faults :=
  { noFaults with createServiceFails := fun n => n == "store-A" }

/-- World for the failed-create scenario: cluster `A` exists, none of its
derived objects do. -/
def wC6 : World :=
  { clusters := [cA0], deployments := [], services := [], routes := [], tarCache := [] }

/-- Faults making the create of the route `query-A` fail. -/
def faultsC6b : Faults :=
  { noFaults with createRouteFails := fun n => n == "query-A" }

/-- World in which the first three ensure-existence objects are present and
only the route is missing. -/
def wC6b : World :=
  { clusters := [cA0],
    deployments := [thanosQueryDeploymentManifest oEx cA0],
    services := [thanosStoreServiceManifest oEx cA0, thanosQueryServiceManifest oEx cA0],
    routes := [], tarCache := [] }

/-- World containing only a query (aggregation) workload. -/
def wC10 : World :=
  { clusters := [], deployments := [thanosQueryDeploymentManifest oEx cA],
    services := [], routes := [], tarCache := [] }

/-- Prometheus-labelled workload referenced by cluster `X`. -/
def dRef : Deployment :=
  { ns := "dowser", name := "d1", labels := [("app", "prometheus")], annotations := [],
    spec := { trivialSpec with template := { trivialSpec.template with
      labels := [("X", "true")] } } }

/-- World in which cluster `X` references workload `d1`. -/
def wRef : World :=
  { clusters := [{ name := "X", urls := [] }], deployments := [dRef],
    services := [], routes := [], tarCache := [] }

/-- Network on which the metadata fetch for job URL `u1` fails and all other
fetches succeed. -/
def netC5 : Network :=
  { getProwInfo := fun s => if s == "u1/prowjob.json" then none else some (true, jobStEx),
    getTarURL := fun _ _ => Except.ok "tar" }

/-- Empty world. -/
def wEmpty : World :=
  { clusters := [], deployments := [], services := [], routes := [], tarCache := [] }

/-! Helper lemmas about the association-list maps and the URL loop. -/

/-- Lookup on a cons cell. -/
theorem smap_lookup_cons (a b : String) (m : SMap) (u : String) :
    SMap.lookup ((a, b) :: m) u = if a = u then some b else SMap.lookup m u := by
  by_cases h : a = u <;> simp [SMap.lookup, List.find?_cons, h]

/-- Replacing the value bound to one key leaves lookups of other keys
unchanged. -/
theorem smap_lookup_map_replace (m : SMap) (k v u : String) (h : u ≠ k) :
    SMap.lookup (List.map (fun p => if p.1 == k then (k, v) else p) m) u
      = SMap.lookup m u := by
  have hku : ¬ (k = u) := fun hh => h hh.symm
  induction m with
  | nil => rfl
  | cons p rest ih =>
    obtain ⟨a, b⟩ := p
    by_cases hak : a = k
    · subst hak
      simp only [List.map_cons, beq_self_eq_true, if_true, smap_lookup_cons, hku, if_neg,
        not_false_iff]
      simpa [hku] using ih
    · have hak' : (a == k) = false := by simp [hak]
      simp only [List.map_cons, hak', Bool.false_eq_true, if_false, smap_lookup_cons]
      by_cases hau : a = u
      · simp [hau]
      · simp [hau]
        simpa using ih

/-- Appending a binding for a different key leaves a lookup unchanged. -/
theorem smap_lookup_append_single (m : SMap) (k v u : String) (h : u ≠ k) :
    SMap.lookup (m ++ [(k, v)]) u = SMap.lookup m u := by
  have hku : ¬ (k = u) := fun hh => h hh.symm
  induction m with
  | nil => simp [SMap.lookup, List.find?_cons, hku]
  | cons p rest ih =>
    obtain ⟨a, b⟩ := p
    by_cases hau : a = u <;> simp [List.cons_append, smap_lookup_cons, hau, ih]

/-- Inserting under one key leaves lookups of other keys unchanged. -/
theorem smap_lookup_insert_ne (m : SMap) (k v u : String) (h : u ≠ k) :
    SMap.lookup (SMap.insert m k v) u = SMap.lookup m u := by
  unfold SMap.insert
  split
  · exact smap_lookup_map_replace m k v u h
  · exact smap_lookup_append_single m k v u h

/-- The resolver either leaves the cache unchanged or extends it at the
resolved job URL. -/
theorem findPrometheusTarURL_cache_cases (lookup : String → Except String String)
    (v : String) (cache : SMap) :
    (findPrometheusTarURL lookup v cache).2.1 = cache
    ∨ ∃ t, (findPrometheusTarURL lookup v cache).2.1 = SMap.insert cache v t := by
  unfold findPrometheusTarURL
  cases hl : SMap.lookup cache v with
  | some t => simp
  | none =>
    cases he : lookup v with
    | error e => simp
    | ok t => exact Or.inr ⟨t, rfl⟩

/-- Processing one URL changes the memoization cache at most by caching that
URL's own archive location. -/
theorem processURL_tarCache (o : Operator) (net : Network) (faults : Faults)
    (cluster : MetricsCluster) (v : String) (w : World) :
    (processURL o net faults cluster v w).1.tarCache = w.tarCache
    ∨ (processURL o net faults cluster v w).1.tarCache
        = (findPrometheusTarURL (fun x => net.getTarURL x o.gcsPrefixURL) v w.tarCache).2.1 := by
  unfold processURL
  cases hg : net.getProwInfo (prowInfoURL o v) with
  | none => exact Or.inl rfl
  | some pr =>
    obtain ⟨b, pj⟩ := pr
    right
    simp only []
    split
    · rfl
    · split
      · rfl
      · split
        · split
          · split
            · rfl
            · simp [updateDeploymentIn]
          · rfl
        · split
          · rfl
          · rfl

/-- Cache lookups of other job URLs survive processing one URL. -/
theorem processURL_tarCache_lookup_ne (o : Operator) (net : Network) (faults : Faults)
    (cluster : MetricsCluster) (v : String) (w : World) (u : String) (h : u ≠ v) :
    SMap.lookup (processURL o net faults cluster v w).1.tarCache u
      = SMap.lookup w.tarCache u := by
  rcases processURL_tarCache o net faults cluster v w with h1 | h1
  · rw [h1]
  · rw [h1]
    rcases findPrometheusTarURL_cache_cases (fun x => net.getTarURL x o.gcsPrefixURL) v
        w.tarCache with h2 | ⟨t, h2⟩
    · rw [h2]
    · rw [h2, smap_lookup_insert_ne _ _ _ _ h]

/-- A URL whose metadata fetch fails, or whose archive is uncached and whose
archive discovery fails, is skipped without any effect. -/
theorem processURL_skip (o : Operator) (net : Network) (faults : Faults)
    (cluster : MetricsCluster) (u : String) (w : World)
    (hfail : net.getProwInfo (prowInfoURL o u) = none ∨
      (SMap.lookup w.tarCache u = none ∧
        ∃ e, net.getTarURL u o.gcsPrefixURL = Except.error e)) :
    processURL o net faults cluster u w = (w, [], none) := by
  rcases hfail with h | ⟨hmiss, e, herr⟩
  · simp [processURL, h]
  · cases hg : net.getProwInfo (prowInfoURL o u) with
    | none => simp [processURL, hg]
    | some pr =>
      obtain ⟨b, pj⟩ := pr
      simp [processURL, hg, findPrometheusTarURL, hmiss, herr]

/-- Removing a metadata-failing URL from the loop's list does not change the
loop's result. -/
theorem processURLs_skip_failing (o : Operator) (net : Network) (faults : Faults)
    (cluster : MetricsCluster) (u : String) (post : List String) (pre : List String)
    (w : World) (ws : List WriteOp) (hpre : u ∉ pre)
    (hfail : net.getProwInfo (prowInfoURL o u) = none ∨
      (SMap.lookup w.tarCache u = none ∧
        ∃ e, net.getTarURL u o.gcsPrefixURL = Except.error e)) :
    processURLs o net faults cluster (pre ++ u :: post) w ws
      = processURLs o net faults cluster (pre ++ post) w ws := by
  induction pre generalizing w ws with
  | nil =>
    simp only [List.nil_append, processURLs,
      processURL_skip o net faults cluster u w hfail, List.append_nil]
  | cons p rest ih =>
    have hne : u ≠ p := by
      intro hh
      exact hpre (hh ▸ List.mem_cons_self p rest)
    have hrest : u ∉ rest := fun hh => hpre (List.mem_cons_of_mem p hh)
    have hfail' : net.getProwInfo (prowInfoURL o u) = none ∨
        (SMap.lookup (processURL o net faults cluster p w).1.tarCache u = none ∧
          ∃ e, net.getTarURL u o.gcsPrefixURL = Except.error e) := by
      rcases hfail with h | ⟨hm, he⟩
      · exact Or.inl h
      · refine Or.inr ⟨?_, he⟩
        rw [processURL_tarCache_lookup_ne o net faults cluster p w u hne]
        exact hm
    simp only [List.cons_append, processURLs]
    cases hstop : (processURL o net faults cluster p w).2.2 with
    | some out => simp [hstop]
    | none => simp only [hstop]; exact ih _ _ hrest hfail'

/-- Processing one URL only depends on the cluster's name, not its URL
list. -/
theorem processURL_name_only (o : Operator) (net : Network) (faults : Faults)
    (n : String) (l₁ l₂ : List String) (v : String) (w : World) :
    processURL o net faults { name := n, urls := l₁ } v w
      = processURL o net faults { name := n, urls := l₂ } v w := rfl

/-- The URL loop only depends on the cluster's name, not its URL list. -/
theorem processURLs_name_only (o : Operator) (net : Network) (faults : Faults)
    (n : String) (l₁ l₂ : List String) (l : List String) (w : World) (ws : List WriteOp) :
    processURLs o net faults { name := n, urls := l₁ } l w ws
      = processURLs o net faults { name := n, urls := l₂ } l w ws := by
  induction l generalizing w ws with
  | nil => rfl
  | cons v rest ih =>
    simp only [processURLs, processURL_name_only o net faults n l₁ l₂ v w]
    cases hstop : (processURL o net faults { name := n, urls := l₂ } v w).2.2 with
    | some out => rfl
    | none => exact ih _ _

/-- The ensure-existence phase only depends on the cluster's name. -/
theorem ensurePhase_name_only (o : Operator) (faults : Faults) (n : String)
    (l₁ l₂ : List String) (w : World) (ws : List WriteOp) :
    ensurePhase o faults { name := n, urls := l₁ } w ws
      = ensurePhase o faults { name := n, urls := l₂ } w ws := rfl

/-- Unfolding of `reconcileExistingCluster` at a literal cluster. -/
theorem reconcileExistingCluster_mk (o : Operator) (net : Network) (faults : Faults)
    (n : String) (l : List String) (w : World) :
    reconcileExistingCluster o net faults { name := n, urls := l } w
      = (let r := processURLs o net faults { name := n, urls := l } l w []
         match r.2.2 with
         | some out => (r.1, r.2.1, out)
         | none => ensurePhase o faults { name := n, urls := l } r.1 r.2.1) := rfl

/-! Claim theorems. -/

set_option maxRecDepth 40000 in
/-- C1: reconciling cluster `B` after cluster `A` created the shared
storage workload for the same job URL leaves the workload without `B`'s
referencing label and issues no deployment write at all: the source
overwrites the observed spec with the desired spec before comparing (the
two then share the mutated labels map), so the merge of `B`'s referencing
label is never persisted and the workload does not converge to carrying
both `A=true` and `B=true`.  This evaluates the embedded code on the
sharing scenario and refutes the claimed label-merge behaviour. -/
theorem sharing_second_label_dropped :
    (let rA := reconcileMetricsCluster oEx netEx noFaults "A" wEx
     let rB := reconcileMetricsCluster oEx netEx noFaults "B" rA.1
     rA.2.2 = Outcome.ok ∧ rB.2.2 = Outcome.ok ∧
     List.all rB.2.1 (fun op => match op with
       | WriteOp.createDeployment d => d.name != "prometheus-su"
       | WriteOp.updateDeployment _ => false
       | _ => true) = true ∧
     (Option.map
       (fun d => (SMap.lookup d.spec.template.labels "A", SMap.lookup d.spec.template.labels "B"))
       (findDeployment rB.1 { ns := "dowser", name := "prometheus-su" }))
       = some (some "true", none)) := by
  decide

/-- C2: delivering the key of a deleted cluster `A` removes nothing: the
source reads the cluster name from the zero-valued object left behind by
the failed Get, so it scans for the empty-string label key and leaves
`A`'s referencing label on the workload untouched. -/
theorem deleted_cluster_reference_not_removed :
    reconcileMetricsCluster oEx netEx noFaults "A" wC2 = (wC2, [], Outcome.ok)
    ∧ SMap.hasKey dC2.spec.template.labels "A" = true := by
  decide

/-- C3: a prometheus-labelled workload delivered to the deployment
reconciler is deleted exactly when no listed cluster's name appears as a
key of its pod-template labels, and is never deleted while at least one
such referencing key is present. -/
theorem storage_workload_deleted_iff_unreferenced (faults : Faults) (w : World)
    (request : NamespacedName) (d : Deployment)
    (hfind : findDeployment w request = some d)
    (happ : SMap.lookup d.labels "app" = some "prometheus") :
    (WriteOp.deleteDeployment d.name ∈ (reconcileDeployment faults w request).2.1
       ↔ ¬ ∃ c ∈ w.clusters, SMap.hasKey d.spec.template.labels c.name = true)
    ∧ ((∃ c ∈ w.clusters, SMap.hasKey d.spec.template.labels c.name = true) →
        (reconcileDeployment faults w request).2.1 = []) := by
  have hstep : reconcileDeployment faults w request
      = reconcilePrometheusDeployment faults w d := by
    simp [reconcileDeployment, hfind, happ]
  rw [hstep]
  unfold reconcilePrometheusDeployment
  by_cases href : ∃ c ∈ w.clusters, SMap.hasKey d.spec.template.labels c.name = true
  · have hany : List.any w.clusters
        (fun cluster => SMap.hasKey d.spec.template.labels cluster.name) = true := by
      rw [List.any_eq_true]; exact href
    simp [hany, href]
  · have hany : List.any w.clusters
        (fun cluster => SMap.hasKey d.spec.template.labels cluster.name) = false := by
      rw [List.any_eq_false]
      intro c hc
      simp only [not_exists, not_and] at href
      intro hk
      exact (href c hc) hk
    by_cases hf : faults.deleteDeploymentFails d.name
    · simp [hany, href, hf]
    · simp [hany, href, hf]

/-- Witness for C3: a referenced workload is left alone. -/
theorem storage_workload_deleted_iff_unreferenced_witness :
    (reconcileDeployment noFaults wRef { ns := "dowser", name := "d1" }).2.1 = [] :=
  (storage_workload_deleted_iff_unreferenced noFaults wRef
      { ns := "dowser", name := "d1" } dRef rfl rfl).2
    ⟨{ name := "X", urls := [] }, by decide, by decide⟩

set_option maxRecDepth 40000 in
/-- C4: re-reconciling cluster `A` immediately after a completed first pass
that changed nothing observable still issues an update call: the observed
workload's spec and labels already equal the desired state and only its
annotations differ, so the first pass's update writes back the identical
object (the update never carries the diffed metadata), the worlds before
and after the first pass agree on every object, and the second pass
repeats the update instead of issuing zero writes. -/
theorem second_pass_still_writes :
    (let r1 := reconcileMetricsCluster oEx netEx noFaults "A" wC4
     let r2 := reconcileMetricsCluster oEx netEx noFaults "A" r1.1
     r1.2.2 = Outcome.ok ∧
     r1.1.clusters = wC4.clusters ∧ r1.1.deployments = wC4.deployments ∧
     r1.1.services = wC4.services ∧ r1.1.routes = wC4.routes ∧
     r2.2.2 = Outcome.ok ∧
     List.any r2.2.1 (fun op => match op with
       | WriteOp.updateDeployment _ => true
       | _ => false) = true) := by
  decide

/-- C5: a job URL whose metadata fetch fails, or whose archive discovery
fails on a cache miss, is skipped with no effect: reconciling a cluster
whose URL list contains such a URL gives exactly the result of reconciling
the same cluster without it — every other URL converges identically and no
error is raised for the cluster on account of the failure. -/
theorem metadata_failure_skips_only_that_url (o : Operator) (net : Network) (faults : Faults)
    (n : String) (pre post : List String) (u : String) (w : World)
    (hpre : u ∉ pre)
    (hfail : net.getProwInfo (prowInfoURL o u) = none ∨
      (SMap.lookup w.tarCache u = none ∧
        ∃ e, net.getTarURL u o.gcsPrefixURL = Except.error e)) :
    reconcileExistingCluster o net faults { name := n, urls := pre ++ u :: post } w
      = reconcileExistingCluster o net faults { name := n, urls := pre ++ post } w := by
  rw [reconcileExistingCluster_mk, reconcileExistingCluster_mk]
  have h1 : processURLs o net faults { name := n, urls := pre ++ u :: post }
        (pre ++ u :: post) w []
      = processURLs o net faults { name := n, urls := pre ++ post } (pre ++ post) w [] := by
    rw [processURLs_skip_failing o net faults { name := n, urls := pre ++ u :: post } u post
      pre w [] hpre hfail]
    exact processURLs_name_only o net faults n (pre ++ u :: post) (pre ++ post) (pre ++ post) w []
  rw [h1]
  simp only [ensurePhase_name_only o faults n (pre ++ u :: post) (pre ++ post)]

/-- Witness for C5: with the metadata fetch for `u1` failing, a cluster
listing three URLs reconciles exactly as the same cluster listing only the
two healthy URLs. -/
theorem metadata_failure_skips_only_that_url_witness :
    reconcileExistingCluster oEx netC5 noFaults { name := "A", urls := ["u1", "u2", "u3"] } wEmpty
      = reconcileExistingCluster oEx netC5 noFaults { name := "A", urls := ["u2", "u3"] } wEmpty :=
  metadata_failure_skips_only_that_url oEx netC5 noFaults "A" [] ["u2", "u3"] "u1" wEmpty
    (by simp) (Or.inl (by decide))

/-- C6 counterexample: with the store-service create failing and no derived
objects present, the reconciliation of cluster `A` issues only the one
failed create and returns the error — the remaining three sub-steps are
not attempted in the same reconciliation, refuting the claim that
independent sub-steps continue. -/
theorem failed_create_halts_reconciliation_cx :
    reconcileMetricsCluster oEx netEx faultsC6 "A" wC6
      = (wC6, [WriteOp.createService (thanosStoreServiceManifest oEx cA0)],
         Outcome.err "couldn't create service") := by
  decide

/-- C6 (amended): a failed create of any ensure-existence sub-step returns
a retryable error immediately: the phase issues exactly the attempts up to
and including the failed one, and the remaining sub-steps are left to the
next delivery (where already-satisfied steps short-circuit to no-op). -/
theorem failed_create_aborts_remaining_steps (o : Operator) (faults : Faults)
    (cluster : MetricsCluster) (w : World) (ws : List WriteOp) :
    (findService w (thanosStoreServiceName o cluster) = none →
      faults.createServiceFails (thanosStoreServiceName o cluster).name = true →
      ensurePhase o faults cluster w ws
        = (w, ws ++ [WriteOp.createService (thanosStoreServiceManifest o cluster)],
           Outcome.err "couldn't create service"))
    ∧ (∀ s, findService w (thanosStoreServiceName o cluster) = some s →
        findDeployment w (thanosQueryDeploymentName o cluster) = none →
        faults.createDeploymentFails (thanosQueryDeploymentName o cluster).name = true →
        ensurePhase o faults cluster w ws
          = (w, ws ++ [WriteOp.createDeployment (thanosQueryDeploymentManifest o cluster)],
             Outcome.err "couldn't create deployment"))
    ∧ (∀ s d, findService w (thanosStoreServiceName o cluster) = some s →
        findDeployment w (thanosQueryDeploymentName o cluster) = some d →
        findService w (thanosQueryServiceName o cluster) = none →
        faults.createServiceFails (thanosQueryServiceName o cluster).name = true →
        ensurePhase o faults cluster w ws
          = (w, ws ++ [WriteOp.createService (thanosQueryServiceManifest o cluster)],
             Outcome.err "couldn't create service"))
    ∧ (∀ s d s', findService w (thanosStoreServiceName o cluster) = some s →
        findDeployment w (thanosQueryDeploymentName o cluster) = some d →
        findService w (thanosQueryServiceName o cluster) = some s' →
        findRoute w (thanosQueryRouteName o cluster) = none →
        faults.createRouteFails (thanosQueryRouteName o cluster).name = true →
        ensurePhase o faults cluster w ws
          = (w, ws ++ [WriteOp.createRoute (thanosQueryRouteManifest o cluster)],
             Outcome.err "couldn't create route")) := by
  refine ⟨?_, ?_, ?_, ?_⟩
  · intro h1 h2
    simp [ensurePhase, ensureStoreService, h1, h2]
  · intro s h1 h2 h3
    simp [ensurePhase, ensureStoreService, ensureQueryDeployment, h1, h2, h3]
  · intro s d h1 h2 h3 h4
    simp [ensurePhase, ensureStoreService, ensureQueryDeployment, ensureQueryService,
      h1, h2, h3, h4]
  · intro s d s' h1 h2 h3 h4 h5
    simp [ensurePhase, ensureStoreService, ensureQueryDeployment, ensureQueryService,
      ensureQueryRoute, h1, h2, h3, h4, h5]

/-- Witness for the amended C6: with the first three objects present and
the route create failing, the phase issues exactly the route create and
errors. -/
theorem failed_create_aborts_remaining_steps_witness :
    ensurePhase oEx faultsC6b cA0 wC6b []
      = (wC6b, [WriteOp.createRoute (thanosQueryRouteManifest oEx cA0)],
         Outcome.err "couldn't create route") :=
  (failed_create_aborts_remaining_steps oEx faultsC6b cA0 wC6b []).2.2.2
    (thanosStoreServiceManifest oEx cA0) (thanosQueryDeploymentManifest oEx cA0)
    (thanosQueryServiceManifest oEx cA0) rfl rfl rfl rfl rfl

/-- C7: a job URL whose metadata document fails to decode leaves the
zero-valued prow job, whose completion timestamp is a nil pointer; manifest
building then dereferences it and panics (modelled as `none`), and the
whole reconciliation of the cluster ends in a panic instead of continuing
with the populated fields. -/
theorem nil_completion_time_panics :
    prometheusDeploymentManifest oEx { prowJob := ProwJob.zero, prometheusTarURL := "tar" } = none
    ∧ (reconcileMetricsCluster oEx netC7 noFaults "A" wC7).2.2
        = Outcome.panicked "nil CompletionTime dereferenced" := by
  decide

/-- C8: the archive-URL resolver returns a cached value without any network
lookup; on a miss with a successful lookup it caches the result before
returning it; on a miss with a failed lookup it returns the error and
leaves the cache unchanged. -/
theorem findPrometheusTarURL_cache_behavior (lookup : String → Except String String)
    (jobURL : String) (cache : SMap) :
    (∀ v, SMap.lookup cache jobURL = some v →
      findPrometheusTarURL lookup jobURL cache = (Except.ok v, cache, 0))
    ∧ (SMap.lookup cache jobURL = none → ∀ t, lookup jobURL = Except.ok t →
      findPrometheusTarURL lookup jobURL cache = (Except.ok t, SMap.insert cache jobURL t, 1))
    ∧ (SMap.lookup cache jobURL = none → ∀ e, lookup jobURL = Except.error e →
      findPrometheusTarURL lookup jobURL cache = (Except.error e, cache, 1)) := by
  refine ⟨?_, ?_, ?_⟩
  · intro v hv; simp [findPrometheusTarURL, hv]
  · intro hmiss t ht; simp [findPrometheusTarURL, hmiss, ht]
  · intro hmiss e he; simp [findPrometheusTarURL, hmiss, he]

/-- Witness for C8: concrete hit, miss-and-success, and miss-and-failure
resolutions. -/
theorem findPrometheusTarURL_cache_behavior_witness :
    findPrometheusTarURL (fun _ => Except.ok "t2") "u" [("u", "v")]
        = (Except.ok "v", [("u", "v")], 0)
    ∧ findPrometheusTarURL (fun _ => Except.ok "t2") "u" []
        = (Except.ok "t2", [("u", "t2")], 1)
    ∧ findPrometheusTarURL (fun _ => Except.error "e") "u" []
        = (Except.error "e", [], 1) :=
  ⟨(findPrometheusTarURL_cache_behavior (fun _ => Except.ok "t2") "u" [("u", "v")]).1 "v" rfl,
   (findPrometheusTarURL_cache_behavior (fun _ => Except.ok "t2") "u" []).2.1 rfl "t2" rfl,
   (findPrometheusTarURL_cache_behavior (fun _ => Except.error "e") "u" []).2.2 rfl "e" rfl⟩

/-- C9 counterexample: the aggregation workload, aggregation service and
external route of one cluster all receive the same name, so the naming
scheme's per-kind name parts are not pairwise distinct as claimed. -/
theorem query_name_prefixes_coincide :
    thanosQueryDeploymentName oEx { name := "c", urls := [] }
        = thanosQueryServiceName oEx { name := "c", urls := [] }
    ∧ thanosQueryServiceName oEx { name := "c", urls := [] }
        = thanosQueryRouteName oEx { name := "c", urls := [] } :=
  ⟨rfl, rfl⟩

/-- C9 (amended): each per-cluster derived object is named by a fixed part
followed by the cluster's name; the store service's part (`store-`) is
distinct from the others, while the aggregation workload, aggregation
service and external route all share the part `query-` (they are
distinguished by resource kind, not by name). -/
theorem derived_object_name_scheme (o : Operator) (cluster : MetricsCluster) :
    (thanosStoreServiceName o cluster).name = "store-" ++ cluster.name
    ∧ (thanosQueryDeploymentName o cluster).name = "query-" ++ cluster.name
    ∧ (thanosQueryServiceName o cluster).name = "query-" ++ cluster.name
    ∧ (thanosQueryRouteName o cluster).name = "query-" ++ cluster.name
    ∧ ("store-" : String) ≠ "query-" :=
  ⟨rfl, rfl, rfl, rfl, by decide⟩

/-- C10: a deployment without the label `app=prometheus` is returned
successfully with no write issued against it; in particular every
aggregation (query) workload manifest carries `app=thanos-query`, so such
workloads are never touched by this reconciler. -/
theorem non_prometheus_deployment_untouched (faults : Faults) (w : World)
    (request : NamespacedName) :
    (∀ d, findDeployment w request = some d →
      SMap.lookup d.labels "app" ≠ some "prometheus" →
      reconcileDeployment faults w request = (w, [], Outcome.ok))
    ∧ (∀ o cluster,
        SMap.lookup (thanosQueryDeploymentManifest o cluster).labels "app"
          = some "thanos-query") := by
  constructor
  · intro d hfind hne
    simp [reconcileDeployment, hfind, hne]
  · intro o cluster
    rfl

/-- Witness for C10: the query workload of cluster `A` is left alone. -/
theorem non_prometheus_deployment_untouched_witness :
    reconcileDeployment noFaults wC10 { ns := "dowser", name := "query-A" }
      = (wC10, [], Outcome.ok) :=
  (non_prometheus_deployment_untouched noFaults wC10 { ns := "dowser", name := "query-A" }).1
    (thanosQueryDeploymentManifest oEx cA) rfl (by decide)

end EzThanos
